import Mathlib

/-!
Verification of the `wileedot` TLS listener facade (`coyote.go`, package
`tlslistener`) against its natural-language specification.

The repository is a thin facade over an external ACME certificate manager
(`golang.org/x/crypto/acme/autocert`).  We shallow-embed the facade's state
and operations: the mutable listener handle, the certificate-manager handle,
configuration validation in `New`, `setup`'s construction of the manager and
TLS configuration, the `net.Listener` methods (`Accept`, `Close`, `Addr`),
the certificate-inspection helpers (`getCertInfo`, `shouldRenew`), forced
renewal (`renewCertificates`) and the body of one iteration of the renewal
timer loop (`renewalRoutine`).

Timestamps (`time.Time`) are modelled as integers; Go's `a.After(b)` is the
strict comparison `b < a`.  Calendar arithmetic (`AddDate`) is not modelled:
the derived instants `now.AddDate(0,-2,0)` and `now.AddDate(0,0,30)` appear
as explicit fields of the tick environment.  The external certificate
manager is opaque: its `GetCertificate` results are supplied by the
environment, and the embedding counts how often the facade invokes it.
-/

namespace Wileedot

/-- Result of `x509.ParseCertificate` on the leaf certificate: the validity
window (`NotBefore`, `NotAfter`), timestamps as integers. -/
structure CertTimes where
  notBefore : Int
  notAfter : Int
deriving Repr, DecidableEq

/-- A certificate as returned by the manager's `GetCertificate`: all the
facade does with it is parse the leaf, so we model it by the outcome of that
parse (`Except.error` = `x509.ParseCertificate` failure). -/
structure RawCert where
  parse : Except String CertTimes
deriving Repr

/-- The external `autocert.Manager` as configured by `setup`: cache
directory, contact email and the host whitelist passed to
`autocert.HostWhitelist`. -/
structure Manager where
  cacheDir : String
  email : String
  hostPolicy : List String
deriving Repr, DecidableEq

/-- Modelled from the delegate's documented contract: the host policy built
by `autocert.HostWhitelist(hosts...)` accepts exactly the listed hosts. -/
def hostPolicyAccepts (m : Manager) (h : String) : Bool :=
  m.hostPolicy.contains h

/-- `tls.Config` as far as the facade manipulates it: the minimum protocol
version and the manager whose `GetCertificate` callback it carries. -/
structure TLSConfig where
  minVersion : Nat
  manager : Manager
deriving Repr, DecidableEq

/-- `crypto/tls.VersionTLS12` (0x0303). -/
def VersionTLS12 : Nat := 771

/-- `autocert.Manager.TLSConfig()`: a TLS configuration whose certificate
callback is the manager; it sets no minimum version (Go zero value 0). -/
def Manager.mkTLSConfig (m : Manager) : TLSConfig :=
  { minVersion := 0, manager := m }

/-- An underlying `net.Listener`: its address, the error its `Close` would
return (`none` = nil error), and what its `Accept` returns — a connection
(identified by a number) and/or an error. -/
structure NetListener where
  addr : Nat
  closeErr : Option String
  acceptResult : Option Nat × Option String
deriving Repr, DecidableEq

/-- The TLS-wrapping listener produced by `tls.Listen` / `tls.NewListener`:
the inner listener plus the TLS configuration installed on it.  `Addr`,
`Close` and the accept outcome delegate to the inner listener. -/
structure TLSNetListener where
  base : NetListener
  tlsConfig : TLSConfig
deriving Repr, DecidableEq

/-- The facade state: the fields of Go's `TLSListener` struct (the mutex is
not part of the sequential state). `listener` and `certManager` start nil
and are installed by `setup`; `Close` nulls `listener`. -/
structure TLSListener where
  listener : Option TLSNetListener
  certManager : Option Manager
  domain : String
  certDir : String
  email : String
  allowedDomains : List String
deriving Repr, DecidableEq

/-- The `Config` struct passed to `New`. -/
structure Config where
  Domain : String
  AllowedDomains : List String
  CertDir : String
  Email : String
  BaseListener : Option NetListener
deriving Repr, DecidableEq

/-- Environment for `setup`: the outcome of `tls.Listen("tcp", ":443", _)`
when no base listener is supplied (binding can fail). -/
structure SetupEnv where
  bindResult : Except String NetListener
deriving Repr

/-- `TLSListener.setup`: builds the autocert manager from the stored
configuration, takes its TLS config and raises the floor to TLS 1.2, then
either binds a fresh listener on :443 or wraps the supplied one, and
installs both handles. -/
def setup (tl : TLSListener) (env : SetupEnv) (baseListener : Option NetListener) :
    Except String TLSListener :=
  let certManager : Manager :=
    { cacheDir := tl.certDir, email := tl.email, hostPolicy := tl.allowedDomains }
  let tlsConfig : TLSConfig :=
    { certManager.mkTLSConfig with minVersion := VersionTLS12 }
  match baseListener with
  | none =>
    match env.bindResult with
    | .error e => .error ("failed to create TLS listener: " ++ e)
    | .ok l =>
      .ok { tl with listener := some { base := l, tlsConfig := tlsConfig },
                    certManager := some certManager }
  | some l =>
    .ok { tl with listener := some { base := l, tlsConfig := tlsConfig },
                  certManager := some certManager }

/-- Outcome of `New`, with flags recording whether `setup` was invoked and
whether the renewal goroutine was started. -/
structure NewResult where
  result : Except String TLSListener
  setupRan : Bool
  goroutineStarted : Bool
deriving Repr

/-- The facade value `New` builds before calling `setup`: note
`allowedDomains` is the primary domain followed by the additional allowed
domains (`append([]string{cfg.Domain}, cfg.AllowedDomains...)`). -/
def newFacade (cfg : Config) : TLSListener :=
  { listener := none, certManager := none, domain := cfg.Domain,
    certDir := cfg.CertDir, email := cfg.Email,
    allowedDomains := cfg.Domain :: cfg.AllowedDomains }

/-- `New`: validates the configuration, builds the facade with
`allowedDomains = Domain :: AllowedDomains`, runs `setup`, and on success
starts the renewal goroutine. -/
def New (cfg : Config) (env : SetupEnv) : NewResult :=
  if cfg.Domain = "" then
    { result := .error "domain is required", setupRan := false, goroutineStarted := false }
  else if cfg.CertDir = "" then
    { result := .error "certificate directory is required",
      setupRan := false, goroutineStarted := false }
  else
    match setup (newFacade cfg) env cfg.BaseListener with
    | .error e =>
      { result := .error ("failed to setup TLS listener: " ++ e),
        setupRan := true, goroutineStarted := false }
    | .ok tl2 =>
      { result := .ok tl2, setupRan := true, goroutineStarted := true }

/-- `TLSListener.Accept`: reads the listener handle; if nil, returns a nil
connection and the closed-listener error, otherwise the underlying accept
outcome. -/
def Accept (tl : TLSListener) : Option Nat × Option String :=
  match tl.listener with
  | none => (none, some "listener is closed")
  | some l => l.base.acceptResult

/-- `TLSListener.Close`: if the handle is already nil, returns nil error and
leaves the state unchanged; otherwise closes the underlying listener, nulls
the handle unconditionally, and returns the underlying close error. -/
def Close (tl : TLSListener) : TLSListener × Option String :=
  match tl.listener with
  | none => (tl, none)
  | some l => ({ tl with listener := none }, l.base.closeErr)

/-- `TLSListener.Addr`: the underlying address, or nil if closed. -/
def Addr (tl : TLSListener) : Option Nat :=
  match tl.listener with
  | none => none
  | some l => some l.base.addr

/-- Environment of one renewal-timer tick.  `getCert` is what the manager's
`GetCertificate(ServerName: domain)` returns for the call made by the
renewal check (`getCertInfo`); `getCertRenew` is what it returns for the
second call made by `renewCertificates` in the same tick.  `twoMonthsAgo`
and `thirtyDaysFromNow` are the instants `now.AddDate(0,-2,0)` and
`now.AddDate(0,0,30)` computed by `shouldRenew` (calendar arithmetic is not
modelled further). -/
structure CertEnv where
  getCert : Except String RawCert
  getCertRenew : Except String RawCert
  twoMonthsAgo : Int
  thirtyDaysFromNow : Int
deriving Repr

/-- `TLSListener.getCertInfo`: fails if the manager handle is nil; otherwise
calls `GetCertificate` for the configured domain and parses the leaf.  The
second component counts the `GetCertificate` invocations the call makes. -/
def getCertInfo (mgr : Option Manager) (gc : Except String RawCert) :
    Except String CertTimes × Nat :=
  match mgr with
  | none => (.error "cert manager is not initialized", 0)
  | some _ =>
    match gc with
    | .error e => (.error ("failed to get current certificate: " ++ e), 1)
    | .ok raw =>
      match raw.parse with
      | .error e => (.error ("failed to parse certificate: " ++ e), 1)
      | .ok info => (.ok info, 1)

/-- `TLSListener.shouldRenew`: propagates `getCertInfo` failures; returns
false when the certificate's NotBefore is strictly after two months ago;
otherwise returns true via one of two branches (the 30-days-of-expiration
comparison selects between two branches that both return true).  The second
component counts `GetCertificate` invocations. -/
def shouldRenew (mgr : Option Manager) (env : CertEnv) :
    Except String Bool × Nat :=
  match getCertInfo mgr env.getCert with
  | (.error e, n) => (.error e, n)
  | (.ok info, n) =>
    if env.twoMonthsAgo < info.notBefore then (.ok false, n)
    else if info.notAfter < env.thirtyDaysFromNow then (.ok true, n)
    else (.ok true, n)

/-- `TLSListener.renewCertificates`: fails if the manager handle is nil;
otherwise forces renewal by calling `GetCertificate` for the configured
domain, returning its error (nil on success).  The second component counts
`GetCertificate` invocations. -/
def renewCertificates (mgr : Option Manager) (gc : Except String RawCert) :
    Option String × Nat :=
  match mgr with
  | none => (some "cert manager is not initialized", 0)
  | some _ =>
    match gc with
    | .error e => (some e, 1)
    | .ok _ => (none, 1)

/-- What one tick of `renewalRoutine` logs: the loop body converts every
error into a log entry and continues. -/
inductive TickLog where
  | checkFailed (e : String)
  | skipped
  | renewFailed (e : String)
  | renewed
deriving Repr, DecidableEq

/-- The body of one tick of `renewalRoutine` (the daily loop): runs the
renewal check; on check failure logs and continues; when renewal is due,
calls `renewCertificates` and logs its outcome.  The second component counts
the `GetCertificate` invocations the tick makes. -/
def renewalTick (mgr : Option Manager) (env : CertEnv) : TickLog × Nat :=
  match shouldRenew mgr env with
  | (.error e, n) => (.checkFailed e, n)
  | (.ok false, n) => (.skipped, n)
  | (.ok true, n) =>
    match renewCertificates mgr env.getCertRenew with
    | (some e, m) => (.renewFailed e, n + m)
    | (none, m) => (.renewed, n + m)

/-- `renewalRoutine`: runs the tick body once per timer tick, forever; here
folded over the (arbitrary) sequence of tick environments, yielding the log
of every tick.  The return type records that no tick outcome escapes the
loop as an error. -/
def renewalRoutine (mgr : Option Manager) (envs : List CertEnv) : List TickLog :=
  envs.map fun env => (renewalTick mgr env).1

/-- The operations invocable on a constructed facade.  `certInfoOp` and
`renewOp` carry the `GetCertificate` outcome of their one manager call;
`tickOp` carries a tick environment. -/
inductive Op where
  | acceptOp
  | closeOp
  | addrOp
  | certInfoOp (gc : Except String RawCert)
  | renewOp (gc : Except String RawCert)
  | tickOp (env : CertEnv)

/-- State transition of each post-construction operation.  `Accept`, `Addr`,
`getCertInfo`, `renewCertificates` and the renewal tick only read the state
(in the source they take the read lock and write no field); `Close` is the
only mutator, nulling the listener handle. -/
def applyOp (tl : TLSListener) (op : Op) : TLSListener :=
  match op with
  | .acceptOp => tl
  | .closeOp => (Close tl).1
  | .addrOp => tl
  | .certInfoOp _ => tl
  | .renewOp _ => tl
  | .tickOp _ => tl

/-! ### Helper lemmas -/

/-- On success, `setup` installs the manager built from the stored
configuration and a listener carrying that manager's TLS config with the
minimum version raised to TLS 1.2 — in both the bind and the wrap branch. -/
theorem setup_ok_shape (tl : TLSListener) (env : SetupEnv)
    (b : Option NetListener) (tl2 : TLSListener)
    (h : setup tl env b = .ok tl2) :
    tl2.certManager =
      some { cacheDir := tl.certDir, email := tl.email,
             hostPolicy := tl.allowedDomains } ∧
    ∃ l, tl2.listener = some l ∧
      l.tlsConfig =
        { minVersion := VersionTLS12,
          manager := { cacheDir := tl.certDir, email := tl.email,
                       hostPolicy := tl.allowedDomains } } := by
  unfold setup at h
  cases b with
  | none =>
    cases hb : env.bindResult with
    | error e => rw [hb] at h; exact absurd h (by simp)
    | ok l =>
      rw [hb] at h
      simp only [Except.ok.injEq] at h
      subst h
      exact ⟨rfl, _, rfl, rfl⟩
  | some l =>
    simp only [Except.ok.injEq] at h
    subst h
    exact ⟨rfl, _, rfl, rfl⟩

/-- On success, `New` has run `setup` on the facade it built from the
configuration, with `allowedDomains = Domain :: AllowedDomains`. -/
theorem New_ok_setup (cfg : Config) (env : SetupEnv) (tl : TLSListener)
    (h : (New cfg env).result = .ok tl) :
    setup (newFacade cfg) env cfg.BaseListener = .ok tl := by
  unfold New at h
  by_cases hd : cfg.Domain = ""
  · simp [hd] at h
  · by_cases hc : cfg.CertDir = ""
    · simp [hd, hc] at h
    · simp only [hd, hc, if_false, if_neg] at h
      cases hs : setup (newFacade cfg) env cfg.BaseListener with
      | error e => rw [hs] at h; exact absurd h (by simp)
      | ok tl2 => rw [hs] at h; simp at h; rw [h]

/-- The call count of `shouldRenew` with an installed manager is always 1. -/
theorem shouldRenew_count (m : Manager) (env : CertEnv) :
    (shouldRenew (some m) env).2 = 1 := by
  unfold shouldRenew getCertInfo
  cases hg : env.getCert with
  | error e => simp
  | ok raw =>
    cases hp : raw.parse with
    | error e => simp [hp]
    | ok info =>
      by_cases hlt : env.twoMonthsAgo < info.notBefore <;> simp [hp, hlt]

/-! ### Claim theorems -/

/-- Claim C2: for every configuration whose `Domain` or `CertDir` is the
empty string, `New` returns a configuration error (hence no listener), and
neither `setup` nor the background renewal goroutine is started. -/
theorem New_rejects_empty_config (cfg : Config) (env : SetupEnv)
    (h : cfg.Domain = "" ∨ cfg.CertDir = "") :
    (∃ e, (New cfg env).result = Except.error e) ∧
    (New cfg env).setupRan = false ∧
    (New cfg env).goroutineStarted = false := by
  by_cases hd : cfg.Domain = ""
  · exact ⟨⟨"domain is required", by simp [New, hd]⟩, by simp [New, hd], by simp [New, hd]⟩
  · have hc : cfg.CertDir = "" := h.resolve_left hd
    exact ⟨⟨"certificate directory is required", by simp [New, hd, hc]⟩,
           by simp [New, hd, hc], by simp [New, hd, hc]⟩

/-- Concrete configuration with an empty domain, used to witness C2. -/
def cfgEmptyDomain : Config :=
  { Domain := "", AllowedDomains := ["www.example.com"], CertDir := "certs",
    Email := "admin@example.com", BaseListener := none }

/-- Environment whose :443 bind would fail (irrelevant to rejected configs). -/
def envBindFails : SetupEnv := { bindResult := .error "address in use" }

/-- Witness for C2 at a concrete configuration with `Domain = ""`. -/
theorem New_rejects_empty_config_witness :
    (∃ e, (New cfgEmptyDomain envBindFails).result = Except.error e) ∧
    (New cfgEmptyDomain envBindFails).setupRan = false ∧
    (New cfgEmptyDomain envBindFails).goroutineStarted = false :=
  New_rejects_empty_config cfgEmptyDomain envBindFails (Or.inl rfl)

/-- Claim C3: after `Close`, every `Accept` returns a nil connection and the
closed-listener error, and a second `Close` returns nil. -/
theorem Accept_after_Close_fails (tl : TLSListener) :
    Accept (Close tl).1 = (none, some "listener is closed") ∧
    (Close (Close tl).1).2 = none := by
  cases h : tl.listener <;> simp [Close, Accept, h]

/-- Claim C7: `Addr` after `Close` returns nil. -/
theorem Addr_after_Close_nil (tl : TLSListener) :
    Addr (Close tl).1 = none := by
  cases h : tl.listener <;> simp [Close, Addr, h]

/-- Claim C10: `Close` nulls the listener handle even when the underlying
close returns an error, while returning that error; consequently, after any
first `Close` — successful or not — `Accept` fails with the closed-listener
error, `Addr` returns nil, and a second `Close` returns nil. -/
theorem Close_nulls_handle_returns_error (tl : TLSListener)
    (l : TLSNetListener) (h : tl.listener = some l) :
    (Close tl).2 = l.base.closeErr ∧
    (Close tl).1.listener = none ∧
    Accept (Close tl).1 = (none, some "listener is closed") ∧
    Addr (Close tl).1 = none ∧
    (Close (Close tl).1).2 = none := by
  simp [Close, Accept, Addr, h]

/-- A TLS-wrapped listener whose underlying close fails. -/
def lsnCloseFails : TLSNetListener :=
  { base := { addr := 443, closeErr := some "close failed",
              acceptResult := (some 1, none) },
    tlsConfig := { minVersion := VersionTLS12,
                   manager := { cacheDir := "certs", email := "admin@example.com",
                                hostPolicy := ["example.com"] } } }

/-- A constructed facade state holding `lsnCloseFails`. -/
def stClosable : TLSListener :=
  { listener := some lsnCloseFails,
    certManager := some { cacheDir := "certs", email := "admin@example.com",
                          hostPolicy := ["example.com"] },
    domain := "example.com", certDir := "certs", email := "admin@example.com",
    allowedDomains := ["example.com"] }

/-- Witness for C10: a listener whose underlying close errors still has its
handle nulled, the error is returned, and the post-close behaviour holds. -/
theorem Close_nulls_handle_returns_error_witness :
    (Close stClosable).2 = lsnCloseFails.base.closeErr ∧
    (Close stClosable).1.listener = none ∧
    Accept (Close stClosable).1 = (none, some "listener is closed") ∧
    Addr (Close stClosable).1 = none ∧
    (Close (Close stClosable).1).2 = none :=
  Close_nulls_handle_returns_error stClosable lsnCloseFails rfl

/-- Claim C4: on every successful construction, the autocert manager's host
policy accepts exactly the configured domain set — the primary domain
followed by the optional additional allowed domains, and no other host. -/
theorem New_hostPolicy_exact (cfg : Config) (env : SetupEnv) (tl : TLSListener)
    (h : (New cfg env).result = .ok tl) (host : String) :
    ∃ m, tl.certManager = some m ∧
      (hostPolicyAccepts m host = true ↔
        host = cfg.Domain ∨ host ∈ cfg.AllowedDomains) := by
  have hs := New_ok_setup cfg env tl h
  obtain ⟨hm, -⟩ := setup_ok_shape _ env cfg.BaseListener tl hs
  refine ⟨_, hm, ?_⟩
  simp [hostPolicyAccepts, newFacade]

/-- A base listener to wrap, for success witnesses. -/
def baseLsn : NetListener :=
  { addr := 8443, closeErr := none, acceptResult := (some 1, none) }

/-- A valid configuration wrapping a caller-supplied base listener. -/
def cfgWrap : Config :=
  { Domain := "example.com", AllowedDomains := ["www.example.com"],
    CertDir := "certs", Email := "admin@example.com",
    BaseListener := some baseLsn }

/-- A valid configuration with no base listener (bind branch). -/
def cfgBind : Config :=
  { Domain := "example.com", AllowedDomains := [], CertDir := "certs",
    Email := "admin@example.com", BaseListener := none }

/-- Environment whose :443 bind succeeds. -/
def envBindOk : SetupEnv :=
  { bindResult := .ok { addr := 443, closeErr := none,
                        acceptResult := (some 2, none) } }

/-- The facade `New` returns for `cfgWrap` (wrap branch). -/
def tlWrap : TLSListener :=
  match (New cfgWrap envBindOk).result with
  | .ok tl => tl
  | .error _ => stClosable

/-- The facade `New` returns for `cfgBind` (bind branch). -/
def tlBind : TLSListener :=
  match (New cfgBind envBindOk).result with
  | .ok tl => tl
  | .error _ => stClosable

/-- Witness for C4 at a concrete successful construction. -/
theorem New_hostPolicy_exact_witness :
    ∃ m, tlWrap.certManager = some m ∧
      (hostPolicyAccepts m "www.example.com" = true ↔
        "www.example.com" = cfgWrap.Domain ∨
        "www.example.com" ∈ cfgWrap.AllowedDomains) :=
  New_hostPolicy_exact cfgWrap envBindOk tlWrap rfl "www.example.com"

/-- Claim C5: on every successful setup the TLS configuration installed on
the listener is the one obtained from the certificate manager with its
minimum version set to TLS 1.2 (0x0303), in the bind branch and the wrap
branch alike (the theorem quantifies over both via `cfg.BaseListener`). -/
theorem New_tlsConfig_minVersion (cfg : Config) (env : SetupEnv)
    (tl : TLSListener) (h : (New cfg env).result = .ok tl) :
    ∃ l m, tl.listener = some l ∧ tl.certManager = some m ∧
      l.tlsConfig = { m.mkTLSConfig with minVersion := VersionTLS12 } ∧
      l.tlsConfig.minVersion = 771 := by
  have hs := New_ok_setup cfg env tl h
  obtain ⟨hm, l, hl, hcfg⟩ := setup_ok_shape _ env cfg.BaseListener tl hs
  exact ⟨l, _, hl, hm, by rw [hcfg]; rfl, by rw [hcfg]; rfl⟩

/-- Witness for C5 covering both branches: a bind-branch construction and a
wrap-branch construction, each with the TLS 1.2 floor installed. -/
theorem New_tlsConfig_minVersion_witness :
    (∃ l m, tlBind.listener = some l ∧ tlBind.certManager = some m ∧
      l.tlsConfig = { m.mkTLSConfig with minVersion := VersionTLS12 } ∧
      l.tlsConfig.minVersion = 771) ∧
    (∃ l m, tlWrap.listener = some l ∧ tlWrap.certManager = some m ∧
      l.tlsConfig = { m.mkTLSConfig with minVersion := VersionTLS12 } ∧
      l.tlsConfig.minVersion = 771) :=
  ⟨New_tlsConfig_minVersion cfgBind envBindOk tlBind rfl,
   New_tlsConfig_minVersion cfgWrap envBindOk tlWrap rfl⟩

/-- Claim C6: the certificate-manager handle installed at construction is
never modified by any sequence of post-construction operations (`Accept`,
`Close`, `Addr`, `getCertInfo`, `renewCertificates`, renewal ticks). -/
theorem certManager_immutable (tl : TLSListener) (ops : List Op) :
    (ops.foldl applyOp tl).certManager = tl.certManager := by
  induction ops generalizing tl with
  | nil => rfl
  | cons op rest ih =>
    rw [List.foldl_cons, ih]
    cases op
    case closeOp => cases h : tl.listener <;> simp [applyOp, Close, h]
    all_goals rfl

/-- Claim C8: a failing renewal check or renewal in any tick never
terminates the renewal routine: the tick's outcome becomes a log entry, all
earlier and later ticks are processed unchanged, and no error leaves the
loop (its result type is a log, not an error). -/
theorem renewalRoutine_survives_errors (mgr : Option Manager)
    (pre : List CertEnv) (env : CertEnv) (post : List CertEnv) :
    renewalRoutine mgr (pre ++ env :: post) =
      renewalRoutine mgr pre ++
        (renewalTick mgr env).1 :: renewalRoutine mgr post ∧
    (renewalRoutine mgr (pre ++ env :: post)).length =
      pre.length + 1 + post.length := by
  constructor
  · simp [renewalRoutine]
  · simp [renewalRoutine]; omega

/-- Claim C9: with an installed manager and a certificate that fetches and
parses successfully, `shouldRenew` returns true exactly when NotBefore is
not after two months ago (i.e. `notBefore ≤ twoMonthsAgo`), and the
within-30-days-of-expiration comparison has no effect on the result. -/
theorem shouldRenew_iff_two_months (m : Manager) (env : CertEnv)
    (info : CertTimes) (h : env.getCert = .ok { parse := .ok info }) :
    (shouldRenew (some m) env).1 =
      .ok (decide (info.notBefore ≤ env.twoMonthsAgo)) ∧
    ∀ t : Int,
      (shouldRenew (some m) { env with thirtyDaysFromNow := t }).1 =
        (shouldRenew (some m) env).1 := by
  have key : ∀ e : CertEnv, e.getCert = .ok { parse := .ok info } →
      (shouldRenew (some m) e).1 =
        .ok (decide (info.notBefore ≤ e.twoMonthsAgo)) := by
    intro e he
    unfold shouldRenew getCertInfo
    rcases le_or_lt info.notBefore e.twoMonthsAgo with hle | hlt
    · have hnl : ¬ e.twoMonthsAgo < info.notBefore := not_lt.mpr hle
      by_cases h30 : info.notAfter < e.thirtyDaysFromNow <;>
        simp [he, hnl, h30, hle]
    · have hn : ¬ info.notBefore ≤ e.twoMonthsAgo := not_le.mpr hlt
      simp [he, hlt, hn]
  refine ⟨key env h, fun t => ?_⟩
  rw [key env h, key { env with thirtyDaysFromNow := t } h]

/-- A leaf certificate old enough that renewal is due. -/
def ctDue : CertTimes := { notBefore := 0, notAfter := 1000 }

/-- A tick environment in which both `GetCertificate` calls succeed with
`ctDue` and the certificate is at least two months old. -/
def envDue : CertEnv :=
  { getCert := .ok { parse := .ok ctDue },
    getCertRenew := .ok { parse := .ok ctDue },
    twoMonthsAgo := 50, thirtyDaysFromNow := 900 }

/-- A concrete installed manager. -/
def mgrEx : Manager :=
  { cacheDir := "certs", email := "admin@example.com",
    hostPolicy := ["example.com"] }

/-- Witness for C9 at a concrete environment with a parsed certificate. -/
theorem shouldRenew_iff_two_months_witness :
    (shouldRenew (some mgrEx) envDue).1 =
      .ok (decide (ctDue.notBefore ≤ envDue.twoMonthsAgo)) ∧
    ∀ t : Int,
      (shouldRenew (some mgrEx) { envDue with thirtyDaysFromNow := t }).1 =
        (shouldRenew (some mgrEx) envDue).1 :=
  shouldRenew_iff_two_months mgrEx envDue ctDue rfl

/-- Counterexample to claim C1 as stated: in a tick where the renewal check
reports renewal due, the routine calls `GetCertificate` for the configured
domain twice — once inside `shouldRenew`'s `getCertInfo` and once inside
`renewCertificates` — not exactly once. -/
theorem renewalTick_not_exactly_one_call :
    (renewalTick (some mgrEx) envDue).2 = 2 ∧
    (renewalTick (some mgrEx) envDue).2 ≠ 1 := by
  constructor <;> decide

/-- Claim C1 (amended): each tick of the renewal routine calls
`GetCertificate` for the configured domain once or twice — exactly twice
precisely when the renewal check reports renewal due, and exactly once
otherwise (check failed or renewal not due).  The count is a function of the
tick's own environment alone, so it is unaffected by any previous tick's
success or failure. -/
theorem renewalTick_getCertificate_calls (m : Manager) (env : CertEnv) :
    ((renewalTick (some m) env).2 = 1 ∨ (renewalTick (some m) env).2 = 2) ∧
    ((renewalTick (some m) env).2 = 2 ↔
      (shouldRenew (some m) env).1 = .ok true) := by
  have hc := shouldRenew_count m env
  unfold renewalTick
  cases hsr : shouldRenew (some m) env with
  | mk r n =>
    have hn : n = 1 := by rw [hsr] at hc; exact hc
    subst hn
    cases r with
    | error e => simp [hsr]
    | ok b =>
      cases b with
      | false => simp [hsr]
      | true =>
        unfold renewCertificates
        cases hg : env.getCertRenew <;> simp [hsr]

end Wileedot
